import Mathlib

/-!
Verification development for the `entromy-pe-prototype` repository.

The definitions below are a shallow embedding of the shared agent-session
store (`src/lib/shared/agentSession.ts`) and of the session/connection
state logic of the AI video agent modal
(`src/components/AiVideoAgentModal.tsx`).  Non-deterministic runtime
inputs (generated ids, `Date.now()` clock reads, network responses,
media-device outcomes) are passed in as explicit parameters, so every
definition is a pure, executable function mirroring the source.
-/

namespace EntromyPe

/-! ## Data model (`src/lib/shared/agentSession.ts`) -/

inductive AgentSessionMode
  | audio
  | video
  | fallback
  | none
deriving DecidableEq

inductive AgentTranscriptRole
  | assistant
  | user
  | system
deriving DecidableEq

inductive AgentTranscriptSource
  | triage
  | audio
  | video
  | fallback
deriving DecidableEq

structure AgentTranscriptMessage where
  id : String
  role : AgentTranscriptRole
  text : String
  source : Option AgentTranscriptSource
  timestamp : Option Nat
deriving DecidableEq

structure AgentSessionStatus where
  connected : Bool
  fallbackReason : Option String
  lastUpdatedAt : Option Nat
deriving DecidableEq

structure AgentSessionContext where
  sessionId : String
  originalQuestion : String
  triageAnswer : Option String
  recommendedNextStep : Option String
  transcript : List AgentTranscriptMessage
  currentMode : AgentSessionMode
  status : AgentSessionStatus
deriving DecidableEq

/-- `createTranscriptMessage`; the generated id and the `Date.now()` clock
read are explicit parameters. -/
def createTranscriptMessage (role : AgentTranscriptRole) (text : String)
    (source : Option AgentTranscriptSource) (id : String) (now : Nat) :
    AgentTranscriptMessage :=
  { id := id, role := role, text := text, source := source, timestamp := some now }

/-- `createAgentSessionContext`. -/
def createAgentSessionContext (originalQuestion : String) (id : String) (now : Nat) :
    AgentSessionContext :=
  { sessionId := id
    originalQuestion := originalQuestion
    triageAnswer := Option.none
    recommendedNextStep := Option.none
    transcript := []
    currentMode := AgentSessionMode.none
    status :=
      { connected := false
        fallbackReason := Option.none
        lastUpdatedAt := some now } }

/-- `appendSessionMessage`; `now` models the `Date.now()` used when the
message carries no timestamp (`message.timestamp ?? Date.now()`). -/
def appendSessionMessage (session : AgentSessionContext)
    (message : AgentTranscriptMessage) (now : Nat) : AgentSessionContext :=
  { session with
    transcript := session.transcript ++ [message]
    status :=
      { session.status with
        lastUpdatedAt := some (message.timestamp.getD now) } }

/-- `addSessionSystemNote`. -/
def addSessionSystemNote (session : AgentSessionContext) (text : String)
    (source : AgentTranscriptSource) (id : String) (now : Nat) : AgentSessionContext :=
  appendSessionMessage session
    (createTranscriptMessage AgentTranscriptRole.system text (some source) id now) now

/-- `ensureSessionIntroMessage`. -/
def ensureSessionIntroMessage (session : AgentSessionContext) (introText : String)
    (id : String) (now : Nat) : AgentSessionContext :=
  if session.transcript.length > 0 then session
  else
    appendSessionMessage session
      (createTranscriptMessage AgentTranscriptRole.assistant introText
        (some AgentTranscriptSource.fallback) id now) now

/-- Status patch for `setAgentSessionMode`: an outer `none` means the key
is absent from the `Partial` patch object, so the spread keeps the old
field; an inner `none` models an explicitly `undefined` value. -/
structure AgentSessionStatusPatch where
  connected : Option Bool
  fallbackReason : Option (Option String)
  lastUpdatedAt : Option (Option Nat)
deriving DecidableEq

/-- `setAgentSessionMode`. -/
def setAgentSessionMode (session : AgentSessionContext) (mode : AgentSessionMode)
    (statusPatch : AgentSessionStatusPatch) (now : Nat) : AgentSessionContext :=
  { session with
    currentMode := mode
    status :=
      { connected := statusPatch.connected.getD session.status.connected
        fallbackReason := statusPatch.fallbackReason.getD session.status.fallbackReason
        lastUpdatedAt := some now } }

/-- `updateSessionTriageSummary`. -/
def updateSessionTriageSummary (session : AgentSessionContext)
    (originalQuestion : String) (triageAnswer recommendedNextStep : Option String)
    (now : Nat) : AgentSessionContext :=
  { session with
    originalQuestion := originalQuestion
    triageAnswer := triageAnswer
    recommendedNextStep := recommendedNextStep
    status := { session.status with lastUpdatedAt := some now } }

/-- `getRecentTranscriptEntries`; `count` is an integer, and a positive
count maps to `transcript.slice(-count)`, i.e. dropping all but the last
`count` entries. -/
def getRecentTranscriptEntries (session : AgentSessionContext) (count : Int) :
    List AgentTranscriptMessage :=
  if count ≤ 0 then []
  else session.transcript.drop (session.transcript.length - count.toNat)

/-! ## String helpers

`charsPrefixOf`/`charsContains` model JavaScript `String.prototype.includes`
as executable functions on character lists.  `jsToLower` models
`toLowerCase` on the Basic Latin range (the only range the keyword
patterns use).  `sanitizeDetail` models
`value.replace(/\s+/g, ' ').trim().slice(0, 120)`. -/

def charsPrefixOf : List Char → List Char → Bool
  | [], _ => true
  | _ :: _, [] => false
  | a :: as, b :: bs => a = b && charsPrefixOf as bs

def charsContains (needle : List Char) : List Char → Bool
  | [] => charsPrefixOf needle []
  | b :: bs => charsPrefixOf needle (b :: bs) || charsContains needle bs

/-- Boolean substring test on strings, as JavaScript `includes`. -/
def strIncludes (hay needle : String) : Bool :=
  charsContains needle.data hay.data

def jsToLower (s : String) : String :=
  String.mk (s.data.map Char.toLower)

/-- The character class of the regular expression `\s`. -/
def isJsWhitespace (c : Char) : Bool :=
  c.val = 0x20 || c.val = 0x9 || c.val = 0xa || c.val = 0xb || c.val = 0xc ||
  c.val = 0xd || c.val = 0xa0 || c.val = 0x1680 ||
  (0x2000 ≤ c.val && c.val ≤ 0x200a) ||
  c.val = 0x2028 || c.val = 0x2029 || c.val = 0x202f || c.val = 0x205f ||
  c.val = 0x3000 || c.val = 0xfeff

/-- `replace(/\s+/g, ' ')`: each maximal whitespace run becomes one space.
The flag records whether the previous character was part of a run. -/
def collapseWsAux : Bool → List Char → List Char
  | _, [] => []
  | prevWs, c :: rest =>
    if isJsWhitespace c then
      if prevWs then collapseWsAux true rest
      else ' ' :: collapseWsAux true rest
    else c :: collapseWsAux false rest

def collapseWs (l : List Char) : List Char :=
  collapseWsAux false l

/-- JavaScript `trim`. -/
def trimWs (l : List Char) : List Char :=
  ((l.dropWhile isJsWhitespace).reverse.dropWhile isJsWhitespace).reverse

/-- `sanitizeDetail` (`AiVideoAgentModal.tsx`); `none` models an absent
(`undefined`) argument, for which the function returns the empty string. -/
def sanitizeDetail (value : Option String) : String :=
  match value with
  | Option.none => ""
  | some v => String.mk ((trimWs (collapseWs v.data)).take 120)

/-! ## Triage fallback resolver (`src/lib/shared/agentSession.ts`) -/

structure TriageFallbackResult where
  answer : String
  recommendedNextStep : String
deriving DecidableEq

structure ResponsePattern where
  keywords : List String
  answer : String
  recommendedNextStep : String
deriving DecidableEq

def responsePatterns : List ResponsePattern :=
  [ { keywords := ["ceo", "transition", "new leader"]
      answer := "Stabilize the first 30 days with explicit decision rights, role clarity, and a weekly operating review tied to value-creation priorities. This reduces leadership transition drag before it impacts delivery."
      recommendedNextStep := "Run a 2-week CEO transition checkpoint with deal and operating partners." }
  , { keywords := ["first 100", "100 days", "post-close", "first 30"]
      answer := "Focus early on leadership role-fit, operating cadence, and execution blockers linked to the investment thesis. Keep interventions narrow and owner-based so decisions can move quickly."
      recommendedNextStep := "Set a 100-day plan review with owners, milestones, and escalation triggers." }
  , { keywords := ["leadership", "team", "readiness", "role fit"]
      answer := "Use a consistent leadership scorecard across role fit, bench strength, and execution reliability. Prioritize gaps where weak leadership coverage directly threatens top value levers."
      recommendedNextStep := "Align on a cross-portfolio leadership scorecard and review cadence." }
  , { keywords := ["cadence", "slipping", "execution", "missed"]
      answer := "When execution cadence slips, the root cause is often ownership ambiguity, weak milestone quality, or unresolved dependencies. Address those first before adding initiatives."
      recommendedNextStep := "Run a 14-day cadence reset and escalate any unresolved dependencies." }
  , { keywords := ["portfolio", "compare", "cross-portfolio", "benchmark"]
      answer := "Compare companies using one framework for leadership risk, execution momentum, and intervention responsiveness. That makes support allocation faster and more defensible."
      recommendedNextStep := "Review portfolio heatmap rankings with operating partners this week." }
  , { keywords := ["exit", "readiness", "pre-exit", "sale"]
      answer := "In pre-exit periods, validate leadership resilience and document execution proof points tied to the value-creation narrative. This improves buyer confidence and management consistency."
      recommendedNextStep := "Run an exit-readiness diagnostic focused on leadership stability and delivery evidence." } ]

def defaultTriageFallback : TriageFallbackResult :=
  { answer := "Start with a rapid baseline of leadership risk and execution friction, then prioritize interventions by business impact and urgency. Keep owners and milestones explicit so momentum is visible week to week."
    recommendedNextStep := "Schedule a 30-minute diagnostic to align interventions, owners, and escalation thresholds." }

/-- The per-pattern match test used inside `buildFallbackTriage`. -/
def patternMatches (normalized : String) (p : ResponsePattern) : Bool :=
  p.keywords.any (fun keyword => strIncludes normalized keyword)

/-- `buildFallbackTriage`. -/
def buildFallbackTriage (question : String) : TriageFallbackResult :=
  let normalized := jsToLower question
  match responsePatterns.find? (patternMatches normalized) with
  | some m => { answer := m.answer, recommendedNextStep := m.recommendedNextStep }
  | Option.none => defaultTriageFallback

/-! ## Modal component state (`src/components/AiVideoAgentModal.tsx`)

React `useState`/`useRef` cells are gathered into one `ModalState`
record.  The retained connection resources (data channel, peer
connection, microphone stream, remote audio element, barge-in analysis
loop, speaking timer) are modelled by presence flags; the microphone
stream also records its audio track count. -/

inductive InteractionMode
  | voice
  | video
deriving DecidableEq

inductive RealtimeStatus
  | prototype
  | connecting
  | live
  | fallback
deriving DecidableEq

inductive TavusStatus
  | idle
  | connecting
  | live
  | fallback
deriving DecidableEq

inductive SessionPhase
  | connecting
  | listening
  | thinking
  | responding
  | fallback
  | prototype
deriving DecidableEq

inductive RealtimeFailureStage
  | featureFlagDisabled
  | browserUnsupported
  | microphonePermissionDenied
  | sessionSetupFailed
  | tokenParseFailed
  | webrtcSetupFailed
  | sdpHandshakeFailed
  | dataChannelFailed
  | unknown
deriving DecidableEq

/-- The literal stage strings of the `RealtimeFailureStage` union type. -/
def RealtimeFailureStage.text : RealtimeFailureStage → String
  | featureFlagDisabled => "feature flag disabled"
  | browserUnsupported => "browser unsupported"
  | microphonePermissionDenied => "microphone permission denied"
  | sessionSetupFailed => "session setup failed"
  | tokenParseFailed => "token parse failed"
  | webrtcSetupFailed => "webrtc setup failed"
  | sdpHandshakeFailed => "sdp handshake failed"
  | dataChannelFailed => "data channel failed"
  | unknown => "unknown"

structure RealtimeResources where
  speakingTimer : Bool
  bargeInMonitor : Bool
  dataChannel : Bool
  peerConnection : Bool
  microphoneStream : Option Nat
  remoteAudio : Bool
deriving DecidableEq

def clearedResources : RealtimeResources :=
  { speakingTimer := false
    bargeInMonitor := false
    dataChannel := false
    peerConnection := false
    microphoneStream := Option.none
    remoteAudio := false }

structure ModalState where
  selectedMode : InteractionMode
  isFollowUpLoading : Bool
  realtimeStatus : RealtimeStatus
  sessionPhase : SessionPhase
  realtimeMessage : String
  isAiSpeaking : Bool
  tavusStatus : TavusStatus
  tavusMessage : String
  tavusConversationUrl : String
  tavusConversationId : String
  resources : RealtimeResources
  session : AgentSessionContext
deriving DecidableEq

def initialAssistantLine : String :=
  "I can help triage this quickly and suggest a practical next step for your deal or operating team."

/-- `buildRealtimeFallbackMessage`. -/
def buildRealtimeFallbackMessage (stage : RealtimeFailureStage) (detail : Option String) : String :=
  let safeDetail := sanitizeDetail detail
  if safeDetail = "" then "Realtime unavailable (" ++ stage.text ++ "). Using prototype mode."
  else "Realtime unavailable (" ++ stage.text ++ ": " ++ safeDetail ++ "). Using prototype mode."

/-- `sourceFromMode`. -/
def sourceFromMode (mode : AgentSessionMode) : AgentTranscriptSource :=
  match mode with
  | AgentSessionMode.audio => AgentTranscriptSource.audio
  | AgentSessionMode.video => AgentTranscriptSource.video
  | _ => AgentTranscriptSource.fallback

/-- `modeToSessionMode`. -/
def modeToSessionMode (mode : InteractionMode) : AgentSessionMode :=
  match mode with
  | InteractionMode.voice => AgentSessionMode.audio
  | InteractionMode.video => AgentSessionMode.video

/-- The `updateSessionMode` component callback: `setAgentSessionMode`
with a patch that always carries both `connected` and `fallbackReason`
keys (an omitted `fallbackReason` argument is still an explicit
`undefined` value in the patch object, clearing the old reason). -/
def updateSessionMode (session : AgentSessionContext) (mode : AgentSessionMode)
    (fallbackReason : Option String) (now : Nat) : AgentSessionContext :=
  setAgentSessionMode session mode
    { connected := some (mode == AgentSessionMode.audio || mode == AgentSessionMode.video)
      fallbackReason := some fallbackReason
      lastUpdatedAt := Option.none }
    now

/-- `cleanupRealtime`: clears the speaking timer, stops the barge-in
monitor, closes and clears the data channel and peer connection, stops
the microphone tracks, stops remote playback, and resets the speaking
flag. -/
def cleanupRealtime (st : ModalState) : ModalState :=
  { st with resources := clearedResources, isAiSpeaking := false }

/-- `switchToFallbackMode`: cleanup first, then status/phase/message
updates, session demotion to `fallback` with the stage as reason, and a
transcript system note naming the stage. -/
def switchToFallbackMode (stage : RealtimeFailureStage) (detail : Option String)
    (noteId : String) (now : Nat) (st : ModalState) : ModalState :=
  let st1 := cleanupRealtime st
  { st1 with
    realtimeStatus := RealtimeStatus.fallback
    sessionPhase := SessionPhase.fallback
    realtimeMessage := buildRealtimeFallbackMessage stage detail
    session :=
      addSessionSystemNote
        (updateSessionMode st1.session AgentSessionMode.fallback (some stage.text) now)
        ("Voice mode unavailable (" ++ stage.text ++ "). Continuing in backup mode.")
        AgentTranscriptSource.fallback noteId now }

/-- `switchVideoFallbackMode`.  The live-audio check reads
`realtimeStatusRef.current`, which mirrors the `realtimeStatus` state. -/
def switchVideoFallbackMode (stage : String) (detail : Option String)
    (noteId : String) (now : Nat) (st : ModalState) : ModalState :=
  let safeStage := sanitizeDetail (some stage)
  let safeDetail := sanitizeDetail detail
  let st1 :=
    { st with
      tavusStatus := TavusStatus.fallback
      tavusMessage :=
        "Video avatar unavailable (" ++ safeStage ++
          (if safeDetail = "" then "" else ": " ++ safeDetail) ++ "). Using backup mode." }
  if st.realtimeStatus = RealtimeStatus.live then
    { st1 with
      session :=
        addSessionSystemNote
          (updateSessionMode st1.session AgentSessionMode.audio (some safeStage) now)
          "Video avatar unavailable. Continuing in voice mode."
          AgentTranscriptSource.fallback noteId now
      sessionPhase := SessionPhase.listening }
  else
    { st1 with
      session :=
        addSessionSystemNote
          (updateSessionMode st1.session AgentSessionMode.fallback (some safeStage) now)
          "Video avatar unavailable. Continuing in backup mode."
          AgentTranscriptSource.fallback noteId now
      sessionPhase := SessionPhase.fallback }

/-- `clearTranscript`: reseeds the transcript with a single fresh intro
message and stamps its timestamp into the status block. -/
def clearTranscript (session : AgentSessionContext) (id : String) (now : Nat) :
    AgentSessionContext :=
  let introMessage :=
    createTranscriptMessage AgentTranscriptRole.assistant initialAssistantLine
      (some AgentTranscriptSource.fallback) id now
  { session with
    transcript := [introMessage]
    status := { session.status with lastUpdatedAt := introMessage.timestamp } }

/-! ## Barge-in monitor (`startBargeInMonitor` sampling tick)

One sampling tick of the animation-frame loop: it computes the mean
absolute amplitude of the time-domain byte buffer, and fires the
interruption exactly when the realtime status ref reads `live`, the
agent-speaking ref is set, the amplitude exceeds `0.07`, and more than
`1100` milliseconds have passed since the last fired interruption.  The
tick returns whether it fired together with the updated
`lastBargeInAtRef` value. -/

def absQ (q : ℚ) : ℚ :=
  if q < 0 then -q else q

/-- Mean of `Math.abs((buffer[i] - 128) / 128)` over the sample buffer. -/
def averageAmplitude (buffer : List Nat) : ℚ :=
  ((buffer.map (fun b => absQ (((b : ℚ) - 128) / 128))).sum) / (buffer.length : ℚ)

def bargeInTick (status : RealtimeStatus) (speaking : Bool) (buffer : List Nat)
    (now lastBargeInAt : Int) : Bool × Int :=
  if status = RealtimeStatus.live ∧ speaking = true ∧
      averageAmplitude buffer > 7 / 100 ∧ now - lastBargeInAt > 1100 then
    (true, now)
  else
    (false, lastBargeInAt)

/-! ## Realtime audio connect sequence (`handleStartRealtimeSession`)

The runtime environment met by one connect attempt is reified as a
`ConnectScenario`: the microphone request outcome, the bootstrap
response (HTTP success flag plus parsed body), the peer-connection
constructor outcome, the SDP exchange outcome, and the data-channel
wait outcome, or an uncategorized exception thrown inside the `try`
block.  Generated note ids and clock reads are parameters. -/

inductive BootstrapStage
  | env
  | session_setup
  | token_parse
deriving DecidableEq

inductive RealtimeSessionBody
  | success (clientSecret model voice : Option String)
  | failure (error : String) (stage : Option BootstrapStage)
deriving DecidableEq

inductive MicResult
  | denied (errorName : String)
  | granted (trackCount : Nat)
deriving DecidableEq

inductive PcResult
  | constructed
  | constructorThrew
deriving DecidableEq

inductive SdpExchange
  | success (answerSdp : String)
  | failure (errorText : String)
deriving DecidableEq

inductive ChannelWait
  | opened
  | timedOut
  | errored
deriving DecidableEq

inductive ConnectScenario
  | run (mic : MicResult) (respOk : Bool) (body : RealtimeSessionBody)
      (pc : PcResult) (sdp : SdpExchange) (channel : ChannelWait)
  | uncategorizedThrow
deriving DecidableEq

/-- JavaScript truthiness of an optional string field: `undefined` and
the empty string are falsy. -/
def jsTruthy (o : Option String) : Bool :=
  match o with
  | Option.none => false
  | some s => !(s == "")

/-- `handleStartRealtimeSession`.  The failure branches reproduce the
`RealtimeFlowError` throw sites and the single catch handler, which
calls `switchToFallbackMode` with the tagged stage and optional
`uiDetail`; an untagged exception maps to stage `unknown`.  The success
branch reproduces the `dataChannel.onopen` handler. -/
def handleStartRealtimeSession (realtimeEnabled browserSupported : Bool)
    (st : ModalState) (sc : ConnectScenario) (noteId : String) (now : Nat) : ModalState :=
  if st.realtimeStatus = RealtimeStatus.connecting ∨ st.realtimeStatus = RealtimeStatus.live then st
  else if ¬ realtimeEnabled then
    switchToFallbackMode RealtimeFailureStage.featureFlagDisabled Option.none noteId now st
  else if ¬ browserSupported then
    switchToFallbackMode RealtimeFailureStage.browserUnsupported Option.none noteId now st
  else
    let st0 :=
      { st with
        realtimeStatus := RealtimeStatus.connecting
        sessionPhase := SessionPhase.connecting
        realtimeMessage := "Connecting voice agent..." }
    match sc with
    | ConnectScenario.uncategorizedThrow =>
      switchToFallbackMode RealtimeFailureStage.unknown Option.none noteId now st0
    | ConnectScenario.run mic respOk body pc sdp channel =>
      match mic with
      | MicResult.denied _ =>
        switchToFallbackMode RealtimeFailureStage.microphonePermissionDenied Option.none noteId now st0
      | MicResult.granted trackCount =>
        let st1 :=
          { st0 with
            resources :=
              { st0.resources with
                microphoneStream := some trackCount
                bargeInMonitor := true } }
        match body with
        | RealtimeSessionBody.failure error stage =>
          let stageHint :=
            match stage with
            | some BootstrapStage.token_parse => RealtimeFailureStage.tokenParseFailed
            | _ => RealtimeFailureStage.sessionSetupFailed
          switchToFallbackMode stageHint (some error) noteId now st1
        | RealtimeSessionBody.success clientSecret model _ =>
          if ¬ respOk then
            switchToFallbackMode RealtimeFailureStage.sessionSetupFailed
              (some "Session endpoint returned an unexpected payload.") noteId now st1
          else if ¬ jsTruthy clientSecret ∨ ¬ jsTruthy model then
            switchToFallbackMode RealtimeFailureStage.tokenParseFailed Option.none noteId now st1
          else
            match pc with
            | PcResult.constructorThrew =>
              switchToFallbackMode RealtimeFailureStage.webrtcSetupFailed Option.none noteId now st1
            | PcResult.constructed =>
              let st2 :=
                { st1 with
                  resources :=
                    { st1.resources with peerConnection := true, remoteAudio := true } }
              if trackCount = 0 then
                switchToFallbackMode RealtimeFailureStage.webrtcSetupFailed Option.none noteId now st2
              else
                let st3 :=
                  { st2 with resources := { st2.resources with dataChannel := true } }
                match sdp with
                | SdpExchange.failure errorText =>
                  switchToFallbackMode RealtimeFailureStage.sdpHandshakeFailed
                    (some errorText) noteId now st3
                | SdpExchange.success _ =>
                  match channel with
                  | ChannelWait.timedOut =>
                    switchToFallbackMode RealtimeFailureStage.dataChannelFailed Option.none noteId now st3
                  | ChannelWait.errored =>
                    switchToFallbackMode RealtimeFailureStage.dataChannelFailed Option.none noteId now st3
                  | ChannelWait.opened =>
                    { st3 with
                      realtimeStatus := RealtimeStatus.live
                      sessionPhase := SessionPhase.listening
                      realtimeMessage := "Voice agent connected"
                      session :=
                        addSessionSystemNote
                          (updateSessionMode st3.session AgentSessionMode.audio Option.none now)
                          "Switched to Voice Agent mode. Context preserved."
                          AgentTranscriptSource.audio noteId now }

/-! ## Video avatar connect (`handleConnectVideoAgent`) -/

inductive TavusBody
  | success (conversationId conversationUrl : String)
  | failure (error : String) (stage : Option String)
deriving DecidableEq

inductive TavusFetchOutcome
  | networkError
  | response (httpOk : Bool) (body : TavusBody)
deriving DecidableEq

/-- The `!response.ok || !data.ok` failure test of the Tavus connect. -/
def tavusOutcomeFails : TavusFetchOutcome → Bool
  | TavusFetchOutcome.networkError => true
  | TavusFetchOutcome.response httpOk body =>
    !httpOk ||
      (match body with
       | TavusBody.failure _ _ => true
       | TavusBody.success _ _ => false)

/-- The `!data.ok && data.stage ? data.stage : "session_setup"` stage
selection (a present-but-empty stage string is falsy). -/
def tavusFailureStage : TavusBody → String
  | TavusBody.failure _ (some s) => if s = "" then "session_setup" else s
  | TavusBody.failure _ Option.none => "session_setup"
  | TavusBody.success _ _ => "session_setup"

/-- `handleConnectVideoAgent`; a fetch-level exception is
`TavusFetchOutcome.networkError`, handled by the catch block. -/
def handleConnectVideoAgent (tavusEnabled : Bool) (st : ModalState)
    (outcome : TavusFetchOutcome) (noteId : String) (now : Nat) : ModalState :=
  if st.tavusStatus = TavusStatus.connecting ∨ st.tavusStatus = TavusStatus.live then st
  else if ¬ tavusEnabled then
    switchVideoFallbackMode "feature flag disabled" Option.none noteId now st
  else
    let st0 :=
      { st with
        tavusStatus := TavusStatus.connecting
        sessionPhase := SessionPhase.connecting
        tavusMessage := "Connecting video avatar..." }
    match outcome with
    | TavusFetchOutcome.networkError =>
      switchVideoFallbackMode "session_setup" (some "Unexpected network error") noteId now st0
    | TavusFetchOutcome.response httpOk body =>
      if tavusOutcomeFails (TavusFetchOutcome.response httpOk body) then
        let detail :=
          match body with
          | TavusBody.failure error _ => error
          | TavusBody.success _ _ => "Unexpected Tavus response."
        switchVideoFallbackMode (tavusFailureStage body) (some detail) noteId now st0
      else
        match body with
        | TavusBody.success conversationId conversationUrl =>
          { st0 with
            tavusStatus := TavusStatus.live
            tavusConversationUrl := conversationUrl
            tavusConversationId := conversationId
            tavusMessage := "Video avatar connected"
            sessionPhase := SessionPhase.listening
            session :=
              addSessionSystemNote
                (updateSessionMode st0.session AgentSessionMode.video Option.none now)
                "Switched to Video Avatar mode. Context preserved."
                AgentTranscriptSource.video noteId now }
        | TavusBody.failure error _ =>
          switchVideoFallbackMode (tavusFailureStage body) (some error) noteId now st0

/-! ## Follow-up prompt dispatch (`handleFollowUp`) -/

inductive FollowUpOption
  | plan30
  | validateFirst
  | escalateWhen
deriving DecidableEq

/-- The `followUpOptions` prompt texts. -/
def FollowUpOption.text : FollowUpOption → String
  | plan30 => "Show me a 30-day plan"
  | validateFirst => "What should I validate first?"
  | escalateWhen => "When should I escalate this?"

/-- The `followUpResponses` canned fallback sentences, verbatim. -/
def followUpResponses : FollowUpOption → String
  | FollowUpOption.plan30 => "Weeks 1-2: lock role clarity and decision rights. Weeks 3-4: run weekly cadence reviews tied to the top two value-creation priorities."
  | FollowUpOption.validateFirst => "Validate ownership for critical milestones, leadership coverage in high-risk functions, and dependency risk across teams before adding new initiatives."
  | FollowUpOption.escalateWhen => "Escalate when two cadence cycles slip, decision latency increases, or key leaders are blocked on cross-functional dependencies."

inductive TriageRouteMode
  | live
  | fallbackMode
deriving DecidableEq

inductive TriageBody
  | success (answer recommendedNextStep : String) (mode : TriageRouteMode)
  | failure (error : String)
deriving DecidableEq

inductive TriageFetchOutcome
  | networkError
  | response (httpOk : Bool) (body : TriageBody)
deriving DecidableEq

/-- The catch branch of the HTTP follow-up path: append the canned
fallback sentence for the prompt, tagged `fallback`. -/
def followUpCatchPath (st : ModalState) (opt : FollowUpOption) (ansId : String)
    (now : Nat) : ModalState :=
  let st1 :=
    { st with
      sessionPhase := SessionPhase.responding
      session :=
        appendSessionMessage st.session
          (createTranscriptMessage AgentTranscriptRole.assistant (followUpResponses opt)
            (some AgentTranscriptSource.fallback) ansId now) now }
  { st1 with
    sessionPhase :=
      if st1.realtimeStatus = RealtimeStatus.fallback then SessionPhase.fallback
      else SessionPhase.prototype
    isFollowUpLoading := false }

/-- The HTTP triage branch of `handleFollowUp`: a non-2xx status, an
`ok:false` body, and a fetch-level failure all route to the catch
branch. -/
def followUpHttpPath (st : ModalState) (opt : FollowUpOption)
    (activeSource : AgentTranscriptSource) (fetch : TriageFetchOutcome)
    (ansId noteId : String) (now : Nat) : ModalState :=
  let st1 := { st with isFollowUpLoading := true, sessionPhase := SessionPhase.thinking }
  match fetch with
  | TriageFetchOutcome.response true (TriageBody.success answer recommendedNextStep mode) =>
    let src :=
      match mode with
      | TriageRouteMode.fallbackMode => AgentTranscriptSource.fallback
      | TriageRouteMode.live => activeSource
    let st2 :=
      { st1 with
        sessionPhase := SessionPhase.responding
        session :=
          appendSessionMessage st1.session
            (createTranscriptMessage AgentTranscriptRole.assistant answer (some src) ansId now) now }
    let st3 :=
      { st2 with
        session :=
          addSessionSystemNote st2.session ("Next step: " ++ recommendedNextStep) src noteId now }
    { st3 with
      sessionPhase :=
        if st3.realtimeStatus = RealtimeStatus.live then SessionPhase.listening
        else if st3.realtimeStatus = RealtimeStatus.fallback then SessionPhase.fallback
        else SessionPhase.prototype
      isFollowUpLoading := false }
  | TriageFetchOutcome.response true (TriageBody.failure _) => followUpCatchPath st1 opt ansId now
  | TriageFetchOutcome.response false _ => followUpCatchPath st1 opt ansId now
  | TriageFetchOutcome.networkError => followUpCatchPath st1 opt ansId now

/-- `handleFollowUp`.  `channelSendOk` models whether the data-channel
`send` calls throw on the live path; when they throw, control falls
through the catch into the HTTP triage path.  The
`session.currentMode || modeToSessionMode(selectedMode)` disjunction
always keeps `session.currentMode`, because every mode value is a
non-empty (truthy) string. -/
def handleFollowUp (st : ModalState) (opt : FollowUpOption) (channelSendOk : Bool)
    (fetch : TriageFetchOutcome) (userId ansId noteId : String) (now : Nat) : ModalState :=
  if st.isFollowUpLoading then st
  else
    let activeSource := sourceFromMode st.session.currentMode
    let st1 :=
      { st with
        session :=
          appendSessionMessage st.session
            (createTranscriptMessage AgentTranscriptRole.user opt.text (some activeSource) userId now) now }
    if st1.realtimeStatus = RealtimeStatus.live ∧ st1.resources.dataChannel = true then
      if channelSendOk then { st1 with sessionPhase := SessionPhase.thinking }
      else followUpHttpPath { st1 with sessionPhase := SessionPhase.thinking } opt activeSource fetch ansId noteId now
    else
      followUpHttpPath st1 opt activeSource fetch ansId noteId now

/-! ## Spec-side helpers and concrete fixtures -/

/-- First-match selection over a pattern list, stated the way the spec
describes `buildFallbackTriage`: walk the fixed pattern list in order
and return the first pattern one of whose keywords occurs in the
normalized question. -/
def firstMatchingPattern (normalized : String) : List ResponsePattern → Option ResponsePattern
  | [] => Option.none
  | p :: rest =>
    if patternMatches normalized p then some p else firstMatchingPattern normalized rest

/-- A connect attempt on scenario `sc` ends in the fallback state with
`stage` recorded: realtime status and session mode are `fallback`, the
stage string is the fallback reason, and a system note naming the stage
is appended to the transcript. -/
def connectFailsWithStage (st : ModalState) (noteId : String) (now : Nat)
    (sc : ConnectScenario) (stage : RealtimeFailureStage) : Prop :=
  (handleStartRealtimeSession true true st sc noteId now).realtimeStatus = RealtimeStatus.fallback ∧
  (handleStartRealtimeSession true true st sc noteId now).session.currentMode = AgentSessionMode.fallback ∧
  (handleStartRealtimeSession true true st sc noteId now).session.status.fallbackReason = some stage.text ∧
  ∃ m, (handleStartRealtimeSession true true st sc noteId now).session.transcript =
      st.session.transcript ++ [m] ∧
    m.role = AgentTranscriptRole.system ∧
    m.text = "Voice mode unavailable (" ++ stage.text ++ "). Continuing in backup mode."

/-- The modal state right after a connect attempt passes its guards:
status and phase `connecting` with the connecting message shown. -/
def connectingState (st : ModalState) : ModalState :=
  { st with
    realtimeStatus := RealtimeStatus.connecting
    sessionPhase := SessionPhase.connecting
    realtimeMessage := "Connecting voice agent..." }

/-- `connectingState` after the microphone stream is stored and the
barge-in monitor started. -/
def micGrantedState (st : ModalState) (trackCount : Nat) : ModalState :=
  { connectingState st with
    resources :=
      { (connectingState st).resources with
        microphoneStream := some trackCount
        bargeInMonitor := true } }

/-- `micGrantedState` after the peer connection and remote audio element
are created. -/
def pcConstructedState (st : ModalState) (trackCount : Nat) : ModalState :=
  { micGrantedState st trackCount with
    resources :=
      { (micGrantedState st trackCount).resources with
        peerConnection := true
        remoteAudio := true } }

/-- `pcConstructedState` after the event data channel is created. -/
def channelCreatedState (st : ModalState) (trackCount : Nat) : ModalState :=
  { pcConstructedState st trackCount with
    resources :=
      { (pcConstructedState st trackCount).resources with dataChannel := true } }

/-- The stage a failing Tavus connect reports to
`switchVideoFallbackMode`: the server-reported stage when present (and
truthy), the default `session_setup` otherwise. -/
def reportedTavusStage : TavusFetchOutcome → String
  | TavusFetchOutcome.networkError => "session_setup"
  | TavusFetchOutcome.response _ body => tavusFailureStage body

/-- The detail a failing Tavus connect reports to
`switchVideoFallbackMode`. -/
def reportedTavusDetail : TavusFetchOutcome → Option String
  | TavusFetchOutcome.networkError => some "Unexpected network error"
  | TavusFetchOutcome.response _ (TavusBody.failure error _) => some error
  | TavusFetchOutcome.response _ (TavusBody.success _ _) => some "Unexpected Tavus response."

def sampleMessage : AgentTranscriptMessage :=
  { id := "m1"
    role := AgentTranscriptRole.user
    text := "hello"
    source := some AgentTranscriptSource.triage
    timestamp := some 3 }

def sampleSession : AgentSessionContext :=
  createAgentSessionContext "How do we handle a CEO transition?" "sid" 0

def sampleModalState : ModalState :=
  { selectedMode := InteractionMode.voice
    isFollowUpLoading := false
    realtimeStatus := RealtimeStatus.prototype
    sessionPhase := SessionPhase.prototype
    realtimeMessage := "Prototype transcript mode is active."
    isAiSpeaking := false
    tavusStatus := TavusStatus.idle
    tavusMessage := "Video avatar is available when Tavus is enabled."
    tavusConversationUrl := ""
    tavusConversationId := ""
    resources := clearedResources
    session := sampleSession }

/-! ## Theorems -/

/-- C2: `appendSessionMessage` returns a new context whose transcript is
the old transcript with the message appended at the end (length is the
prior length plus one), with `status.lastUpdatedAt` set to the timestamp of the message, and every other field (`sessionId`, `originalQuestion`,
`triageAnswer`, `recommendedNextStep`, `currentMode`, `status.connected`,
`status.fallbackReason`) unchanged.  The embedding is purely functional,
so the input context is never mutated. -/
theorem appendSessionMessage_spec (session : AgentSessionContext)
    (message : AgentTranscriptMessage) (now : Nat) :
    (appendSessionMessage session message now).transcript = session.transcript ++ [message] ∧
    (appendSessionMessage session message now).transcript.length = session.transcript.length + 1 ∧
    (∀ t, message.timestamp = some t →
      (appendSessionMessage session message now).status.lastUpdatedAt = some t) ∧
    (appendSessionMessage session message now).sessionId = session.sessionId ∧
    (appendSessionMessage session message now).originalQuestion = session.originalQuestion ∧
    (appendSessionMessage session message now).triageAnswer = session.triageAnswer ∧
    (appendSessionMessage session message now).recommendedNextStep = session.recommendedNextStep ∧
    (appendSessionMessage session message now).currentMode = session.currentMode ∧
    (appendSessionMessage session message now).status.connected = session.status.connected ∧
    (appendSessionMessage session message now).status.fallbackReason = session.status.fallbackReason := by
  refine ⟨rfl, by simp [appendSessionMessage], ?_, rfl, rfl, rfl, rfl, rfl, rfl, rfl⟩
  intro t ht
  simp [appendSessionMessage, ht]

/-- Witness for C2 at a concrete session and message. -/
theorem appendSessionMessage_spec_witness :
    (appendSessionMessage sampleSession sampleMessage 9).transcript =
      sampleSession.transcript ++ [sampleMessage] ∧
    (appendSessionMessage sampleSession sampleMessage 9).status.lastUpdatedAt = some 3 := by
  have h := appendSessionMessage_spec sampleSession sampleMessage 9
  exact ⟨h.1, h.2.2.1 3 rfl⟩

/-- On a non-empty transcript, `ensureSessionIntroMessage` is the
identity. -/
theorem ensureSessionIntroMessage_of_nonempty (s : AgentSessionContext)
    (t i : String) (n : Nat) (h : s.transcript.length > 0) :
    ensureSessionIntroMessage s t i n = s := by
  unfold ensureSessionIntroMessage
  rw [if_pos h]

/-- C6: `ensureSessionIntroMessage` is idempotent: on a non-empty
transcript it returns its input unchanged; on an empty transcript it
appends exactly one assistant-role intro message; applying it twice
equals applying it once. -/
theorem ensureSessionIntroMessage_spec (session : AgentSessionContext)
    (introText id id' : String) (now now' : Nat) :
    (session.transcript ≠ [] → ensureSessionIntroMessage session introText id now = session) ∧
    (session.transcript = [] →
      (ensureSessionIntroMessage session introText id now).transcript =
        [createTranscriptMessage AgentTranscriptRole.assistant introText
          (some AgentTranscriptSource.fallback) id now]) ∧
    ensureSessionIntroMessage (ensureSessionIntroMessage session introText id now) introText id' now' =
      ensureSessionIntroMessage session introText id now := by
  refine ⟨?_, ?_, ?_⟩
  · intro hne
    exact ensureSessionIntroMessage_of_nonempty _ _ _ _ (List.length_pos.mpr hne)
  · intro he
    simp [ensureSessionIntroMessage, he, appendSessionMessage]
  · by_cases he : session.transcript = []
    · have h1 : (ensureSessionIntroMessage session introText id now).transcript.length > 0 := by
        simp [ensureSessionIntroMessage, he, appendSessionMessage]
      exact ensureSessionIntroMessage_of_nonempty _ _ _ _ h1
    · have hlen : session.transcript.length > 0 := List.length_pos.mpr he
      rw [ensureSessionIntroMessage_of_nonempty session introText id now hlen]
      exact ensureSessionIntroMessage_of_nonempty _ _ _ _ hlen

/-- Witness for C6: a no-op on a non-empty transcript and a single
appended intro message on an empty one, at concrete inputs. -/
theorem ensureSessionIntroMessage_spec_witness :
    ensureSessionIntroMessage (appendSessionMessage sampleSession sampleMessage 3) "intro" "i1" 4 =
      appendSessionMessage sampleSession sampleMessage 3 ∧
    (ensureSessionIntroMessage sampleSession "intro" "i1" 4).transcript =
      [createTranscriptMessage AgentTranscriptRole.assistant "intro"
        (some AgentTranscriptSource.fallback) "i1" 4] := by
  have h1 := ensureSessionIntroMessage_spec (appendSessionMessage sampleSession sampleMessage 3)
    "intro" "i1" "i2" 4 5
  have h2 := ensureSessionIntroMessage_spec sampleSession "intro" "i1" "i2" 4 5
  exact ⟨h1.1 (by decide), h2.2.1 (by decide)⟩

/-- C8: `getRecentTranscriptEntries` returns the empty sequence for
`count ≤ 0`, never returns more than `count` messages, and for positive
`count` returns exactly the last `min count length` transcript messages
in order (a suffix of the transcript). -/
theorem getRecentTranscriptEntries_spec (session : AgentSessionContext) (count : Int) :
    (count ≤ 0 → getRecentTranscriptEntries session count = []) ∧
    (getRecentTranscriptEntries session count).length ≤ count.toNat ∧
    (0 < count →
      (getRecentTranscriptEntries session count).length =
        min count.toNat session.transcript.length ∧
      ∃ pre, session.transcript = pre ++ getRecentTranscriptEntries session count) := by
  refine ⟨fun h => by simp [getRecentTranscriptEntries, h], ?_, ?_⟩
  · by_cases h : count ≤ 0
    · simp [getRecentTranscriptEntries, h]
    · simp only [getRecentTranscriptEntries, if_neg h, List.length_drop]
      omega
  · intro h
    have h' : ¬ count ≤ 0 := by omega
    refine ⟨?_, ?_⟩
    · simp only [getRecentTranscriptEntries, if_neg h', List.length_drop]
      omega
    · refine ⟨session.transcript.take (session.transcript.length - count.toNat), ?_⟩
      simp only [getRecentTranscriptEntries, if_neg h']
      exact (List.take_append_drop _ _).symm

/-- Witness for C8 at a concrete session and counts `-1` and `8`. -/
theorem getRecentTranscriptEntries_spec_witness :
    getRecentTranscriptEntries sampleSession (-1) = [] ∧
    (getRecentTranscriptEntries sampleSession 8).length =
      min (8 : Int).toNat sampleSession.transcript.length ∧
    ∃ pre, sampleSession.transcript = pre ++ getRecentTranscriptEntries sampleSession 8 := by
  have h1 := getRecentTranscriptEntries_spec sampleSession (-1)
  have h2 := getRecentTranscriptEntries_spec sampleSession 8
  exact ⟨h1.1 (by decide), (h2.2.2 (by decide)).1, (h2.2.2 (by decide)).2⟩

/-- C9: `clearTranscript` always yields a transcript of length exactly 1
holding only the reseeded assistant intro message, with
`status.lastUpdatedAt` set to the timestamp of that message; every other
store operation keeps the transcript at least as long as before, so
`clearTranscript` is the only transcript-shrinking operation. -/
theorem clearTranscript_spec (session : AgentSessionContext) (id : String) (now : Nat) :
    (clearTranscript session id now).transcript =
      [createTranscriptMessage AgentTranscriptRole.assistant initialAssistantLine
        (some AgentTranscriptSource.fallback) id now] ∧
    (clearTranscript session id now).transcript.length = 1 ∧
    (clearTranscript session id now).status.lastUpdatedAt = some now ∧
    (∀ m now', (appendSessionMessage session m now').transcript.length =
      session.transcript.length + 1) ∧
    (∀ text src id' now', (addSessionSystemNote session text src id' now').transcript.length =
      session.transcript.length + 1) ∧
    (∀ introText id' now', session.transcript.length ≤
      (ensureSessionIntroMessage session introText id' now').transcript.length) ∧
    (∀ mode patch now', (setAgentSessionMode session mode patch now').transcript =
      session.transcript) ∧
    (∀ q a n now', (updateSessionTriageSummary session q a n now').transcript =
      session.transcript) := by
  refine ⟨rfl, rfl, rfl, ?_, ?_, ?_, fun _ _ _ => rfl, fun _ _ _ _ => rfl⟩
  · intro m now'
    simp [appendSessionMessage]
  · intro text src id' now'
    simp [addSessionSystemNote, appendSessionMessage]
  · intro introText id' now'
    by_cases he : session.transcript = []
    · simp [ensureSessionIntroMessage, he, appendSessionMessage]
    · have hlen : session.transcript.length > 0 := List.length_pos.mpr he
      simp [ensureSessionIntroMessage, hlen]

/-- `List.find?` with the pattern-match test computes the first-match
selection described by the spec. -/
theorem find?_eq_firstMatchingPattern (normalized : String) (l : List ResponsePattern) :
    l.find? (patternMatches normalized) = firstMatchingPattern normalized l := by
  induction l with
  | nil => rfl
  | cons p rest ih =>
    by_cases h : patternMatches normalized p
    · rw [List.find?_cons_of_pos _ h, firstMatchingPattern, if_pos h]
    · rw [List.find?_cons_of_neg _ h, firstMatchingPattern, if_neg h, ih]

/-- C10: `buildFallbackTriage` is a total function that selects the
first pattern in the fixed pattern list one of whose keywords occurs in
the lowercased question, returns the answer/next-step pair of that pattern,
returns the fixed default pair when no keyword matches, and never
returns an empty answer or next step. -/
theorem buildFallbackTriage_spec (question : String) :
    (∀ p, firstMatchingPattern (jsToLower question) responsePatterns = some p →
      buildFallbackTriage question =
        { answer := p.answer, recommendedNextStep := p.recommendedNextStep }) ∧
    (firstMatchingPattern (jsToLower question) responsePatterns = Option.none →
      buildFallbackTriage question = defaultTriageFallback) ∧
    (buildFallbackTriage question).answer ≠ "" ∧
    (buildFallbackTriage question).recommendedNextStep ≠ "" := by
  have hfind := find?_eq_firstMatchingPattern (jsToLower question) responsePatterns
  refine ⟨?_, ?_, ?_, ?_⟩
  · intro p hp
    simp [buildFallbackTriage, hfind, hp]
  · intro hp
    simp [buildFallbackTriage, hfind, hp]
  all_goals
    rcases hcase : responsePatterns.find? (patternMatches (jsToLower question)) with _ | p
  · simp [buildFallbackTriage, hcase]
    decide
  · have hmem := List.mem_of_find?_eq_some hcase
    simp [buildFallbackTriage, hcase]
    fin_cases hmem <;> decide
  · simp [buildFallbackTriage, hcase]
    decide
  · have hmem := List.mem_of_find?_eq_some hcase
    simp [buildFallbackTriage, hcase]
    fin_cases hmem <;> decide

set_option maxRecDepth 4000 in
/-- Witness for C10: the CEO-transition question selects the first
pattern; a keyword-free question falls back to the default pair. -/
theorem buildFallbackTriage_spec_witness :
    buildFallbackTriage "How do we handle a CEO transition?" =
      { answer := responsePatterns[0].answer,
        recommendedNextStep := responsePatterns[0].recommendedNextStep } ∧
    buildFallbackTriage "zzz" = defaultTriageFallback := by
  have h1 := buildFallbackTriage_spec "How do we handle a CEO transition?"
  have h2 := buildFallbackTriage_spec "zzz"
  exact ⟨h1.1 responsePatterns[0] (by decide), h2.2.1 (by decide)⟩

/-- C4: the barge-in sampling tick fires exactly when the realtime
status is `live`, the agent is flagged as speaking, the mean absolute
amplitude exceeds `0.07`, and more than `1100` ms have elapsed since the
last fired interruption; hence two above-threshold spikes separated by
less than `1100` ms fire exactly one interruption. -/
theorem bargeInTick_spec :
    (∀ status speaking buffer now lastBargeInAt,
      ((bargeInTick status speaking buffer now lastBargeInAt).1 = true ↔
        (status = RealtimeStatus.live ∧ speaking = true ∧
          averageAmplitude buffer > 7 / 100 ∧ now - lastBargeInAt > 1100))) ∧
    (∀ b1 b2 t1 t2 last0,
      averageAmplitude b1 > 7 / 100 →
      averageAmplitude b2 > 7 / 100 →
      t1 - last0 > 1100 →
      t2 - t1 < 1100 →
      bargeInTick RealtimeStatus.live true b1 t1 last0 = (true, t1) ∧
      bargeInTick RealtimeStatus.live true b2 t2
        (bargeInTick RealtimeStatus.live true b1 t1 last0).2 = (false, t1)) := by
  constructor
  · intro status speaking buffer now lastBargeInAt
    unfold bargeInTick
    split
    · rename_i h
      simpa using h
    · rename_i h
      simpa using h
  · intro b1 b2 t1 t2 last0 h1 h2 h3 h4
    have hfire : bargeInTick RealtimeStatus.live true b1 t1 last0 = (true, t1) := by
      unfold bargeInTick
      rw [if_pos ⟨rfl, rfl, h1, h3⟩]
    refine ⟨hfire, ?_⟩
    rw [hfire]
    unfold bargeInTick
    rw [if_neg ?_]
    intro hcond
    have := hcond.2.2.2
    omega

/-- Witness for C4: a full-scale spike at `t = 2000` fires, a second
spike at `t = 2500` does not. -/
theorem bargeInTick_spec_witness :
    bargeInTick RealtimeStatus.live true [255] 2000 0 = (true, 2000) ∧
    bargeInTick RealtimeStatus.live true [255] 2500
      (bargeInTick RealtimeStatus.live true [255] 2000 0).2 = (false, 2000) := by
  have h := bargeInTick_spec.2 [255] [255] 2000 2500 0
    (by norm_num [averageAmplitude, absQ]) (by norm_num [averageAmplitude, absQ])
    (by decide) (by decide)
  exact h

/-- C7: with the live channel unavailable and the triage request failing
at the fetch level, each follow-up prompt appends its fixed canned
fallback sentence, verbatim, as an assistant message tagged with source
`fallback`, right after the echoed user prompt message. -/
theorem handleFollowUp_fallback_spec (st : ModalState) (opt : FollowUpOption)
    (userId ansId noteId : String) (now : Nat)
    (hload : st.isFollowUpLoading = false)
    (hchan : ¬ (st.realtimeStatus = RealtimeStatus.live ∧ st.resources.dataChannel = true)) :
    ∃ userMsg,
      (handleFollowUp st opt true TriageFetchOutcome.networkError userId ansId noteId now).session.transcript =
        st.session.transcript ++
          [userMsg,
            createTranscriptMessage AgentTranscriptRole.assistant (followUpResponses opt)
              (some AgentTranscriptSource.fallback) ansId now] ∧
      userMsg.role = AgentTranscriptRole.user ∧
      userMsg.text = opt.text := by
  refine ⟨createTranscriptMessage AgentTranscriptRole.user opt.text
    (some (sourceFromMode st.session.currentMode)) userId now, ?_, rfl, rfl⟩
  simp only [handleFollowUp, hload]
  rw [if_neg (by simp), if_neg (by simpa using hchan)]
  simp [followUpHttpPath, followUpCatchPath, appendSessionMessage]

/-- Witness for C7 at the concrete prototype-mode modal state and the
30-day-plan prompt. -/
theorem handleFollowUp_fallback_spec_witness :
    ∃ userMsg,
      (handleFollowUp sampleModalState FollowUpOption.plan30 true TriageFetchOutcome.networkError
          "u1" "a1" "n1" 7).session.transcript =
        sampleModalState.session.transcript ++
          [userMsg,
            createTranscriptMessage AgentTranscriptRole.assistant
              (followUpResponses FollowUpOption.plan30)
              (some AgentTranscriptSource.fallback) "a1" 7] ∧
      userMsg.role = AgentTranscriptRole.user ∧
      userMsg.text = FollowUpOption.plan30.text :=
  handleFollowUp_fallback_spec sampleModalState FollowUpOption.plan30 "u1" "a1" "n1" 7
    (by decide) (by decide)

/-- Field-level description of `switchToFallbackMode`: resources are
cleared, status/phase/mode demote to fallback, the stage becomes the
fallback reason, the stage-plus-detail message becomes the status
message, and a system note naming the stage is appended. -/
theorem switchToFallbackMode_result (stage : RealtimeFailureStage) (detail : Option String)
    (noteId : String) (now : Nat) (st : ModalState) :
    (switchToFallbackMode stage detail noteId now st).resources = clearedResources ∧
    (switchToFallbackMode stage detail noteId now st).isAiSpeaking = false ∧
    (switchToFallbackMode stage detail noteId now st).realtimeStatus = RealtimeStatus.fallback ∧
    (switchToFallbackMode stage detail noteId now st).sessionPhase = SessionPhase.fallback ∧
    (switchToFallbackMode stage detail noteId now st).realtimeMessage =
      buildRealtimeFallbackMessage stage detail ∧
    (switchToFallbackMode stage detail noteId now st).session.currentMode = AgentSessionMode.fallback ∧
    (switchToFallbackMode stage detail noteId now st).session.status.connected = false ∧
    (switchToFallbackMode stage detail noteId now st).session.status.fallbackReason = some stage.text ∧
    (switchToFallbackMode stage detail noteId now st).session.transcript =
      st.session.transcript ++
        [createTranscriptMessage AgentTranscriptRole.system
          ("Voice mode unavailable (" ++ stage.text ++ "). Continuing in backup mode.")
          (some AgentTranscriptSource.fallback) noteId now] := by
  simp [switchToFallbackMode, cleanupRealtime, addSessionSystemNote, appendSessionMessage,
    updateSessionMode, setAgentSessionMode, createTranscriptMessage]

/-- The sanitized detail string never exceeds 120 characters. -/
theorem sanitizeDetail_length_le (detail : Option String) :
    (sanitizeDetail detail).length ≤ 120 := by
  cases detail with
  | none => simp [sanitizeDetail]
  | some v =>
    simp only [sanitizeDetail, String.length, List.length_take]
    omega

/-- Every connect attempt returns either the untouched state (re-entry
guard), a `switchToFallbackMode` application on a state sharing the session
of the input, or a state whose realtime status is `live`. -/
theorem handleStartRealtimeSession_shape (en bs : Bool) (st : ModalState)
    (sc : ConnectScenario) (noteId : String) (now : Nat) :
    ((st.realtimeStatus = RealtimeStatus.connecting ∨ st.realtimeStatus = RealtimeStatus.live) ∧
      handleStartRealtimeSession en bs st sc noteId now = st) ∨
    (∃ stage detail s,
      handleStartRealtimeSession en bs st sc noteId now =
        switchToFallbackMode stage detail noteId now s ∧
      s.session = st.session) ∨
    (handleStartRealtimeSession en bs st sc noteId now).realtimeStatus = RealtimeStatus.live := by
  by_cases hg : st.realtimeStatus = RealtimeStatus.connecting ∨
      st.realtimeStatus = RealtimeStatus.live
  · refine Or.inl ⟨hg, ?_⟩
    unfold handleStartRealtimeSession
    rw [if_pos hg]
  · right
    unfold handleStartRealtimeSession
    rw [if_neg hg]
    by_cases hen : en = true
    case neg => rw [if_pos (by simpa using hen)]; exact Or.inl ⟨_, _, _, rfl, rfl⟩
    case pos =>
    rw [if_neg (by simpa using hen)]
    by_cases hbs : bs = true
    case neg => rw [if_pos (by simpa using hbs)]; exact Or.inl ⟨_, _, _, rfl, rfl⟩
    case pos =>
    rw [if_neg (by simpa using hbs)]
    rcases sc with ⟨mic, respOk, body, pc, sdp, channel⟩ | _
    · rcases mic with errName | trackCount
      · exact Or.inl ⟨_, _, _, rfl, rfl⟩
      · rcases body with ⟨cs, mdl, vc⟩ | ⟨err, stg⟩
        · by_cases hro : respOk = true
          case neg =>
            dsimp only
            rw [if_pos (by simpa using hro)]
            exact Or.inl ⟨_, _, _, rfl, rfl⟩
          case pos =>
          dsimp only
          rw [if_neg (not_not_intro hro)]
          by_cases htr : ¬ jsTruthy cs = true ∨ ¬ jsTruthy mdl = true
          · rw [if_pos htr]; exact Or.inl ⟨_, _, _, rfl, rfl⟩
          · rw [if_neg htr]
            rcases pc with _ | _
            · dsimp only
              by_cases htc : trackCount = 0
              · rw [if_pos htc]; exact Or.inl ⟨_, _, _, rfl, rfl⟩
              · rw [if_neg htc]
                rcases sdp with ⟨ans⟩ | ⟨etxt⟩
                · rcases channel with _ | _ | _
                  · exact Or.inr rfl
                  · exact Or.inl ⟨_, _, _, rfl, rfl⟩
                  · exact Or.inl ⟨_, _, _, rfl, rfl⟩
                · exact Or.inl ⟨_, _, _, rfl, rfl⟩
            · exact Or.inl ⟨_, _, _, rfl, rfl⟩
        · exact Or.inl ⟨_, _, _, rfl, rfl⟩
    · exact Or.inl ⟨_, _, _, rfl, rfl⟩

/-- Whenever a connect attempt ends in the fallback state, every
connection resource reference has been cleared. -/
theorem handleStartRealtimeSession_fallback_cleanup (en bs : Bool) (st : ModalState)
    (sc : ConnectScenario) (noteId : String) (now : Nat)
    (hfb : (handleStartRealtimeSession en bs st sc noteId now).realtimeStatus =
      RealtimeStatus.fallback) :
    (handleStartRealtimeSession en bs st sc noteId now).resources = clearedResources := by
  rcases handleStartRealtimeSession_shape en bs st sc noteId now with
    ⟨hg, heq⟩ | ⟨stage, detail, s, heq, hsess⟩ | hlive
  · rw [heq] at hfb
    rcases hg with h | h <;> rw [h] at hfb <;> exact absurd hfb (by decide)
  · rw [heq]
    exact (switchToFallbackMode_result _ _ _ _ _).1
  · rw [hfb] at hlive
    exact absurd hlive (by decide)

/-- C3 counterexample: at the concrete failure stage `unknown` with the
non-empty detail string "quux-detail", the transcript note appended by
the fallback transition is exactly "Voice mode unavailable (unknown).
Continuing in backup mode.", which does not contain the sanitized detail
string; the stage-plus-detail text is recorded in the status message
instead. -/
theorem switchToFallbackMode_note_counterexample :
    (switchToFallbackMode RealtimeFailureStage.unknown (some "quux-detail") "n1" 5
        sampleModalState).session.transcript.map (fun m => m.text) =
      ["Voice mode unavailable (unknown). Continuing in backup mode."] ∧
    sanitizeDetail (some "quux-detail") = "quux-detail" ∧
    strIncludes "Voice mode unavailable (unknown). Continuing in backup mode."
      "quux-detail" = false ∧
    (switchToFallbackMode RealtimeFailureStage.unknown (some "quux-detail") "n1" 5
        sampleModalState).realtimeMessage =
      "Realtime unavailable (unknown: quux-detail). Using prototype mode." := by
  refine ⟨?_, ?_, ?_, ?_⟩ <;> rfl

/-- C3 (amended): every realtime failure performs full resource cleanup
— data channel, peer connection, microphone stream, remote audio,
barge-in monitor and speaking timer references all cleared, speaking
flag reset — and transitions the realtime status and the shared session
mode to fallback; it appends to the transcript a human-readable system
note containing the stage, while the stage plus the sanitized detail
string — whose length never exceeds 120 characters — is recorded in the
fallback status message, not in the transcript note. -/
theorem switchToFallbackMode_spec (stage : RealtimeFailureStage) (detail : Option String)
    (noteId : String) (now : Nat) (st : ModalState) :
    (switchToFallbackMode stage detail noteId now st).resources = clearedResources ∧
    (switchToFallbackMode stage detail noteId now st).isAiSpeaking = false ∧
    (switchToFallbackMode stage detail noteId now st).realtimeStatus = RealtimeStatus.fallback ∧
    (switchToFallbackMode stage detail noteId now st).session.currentMode =
      AgentSessionMode.fallback ∧
    (∃ m, (switchToFallbackMode stage detail noteId now st).session.transcript =
        st.session.transcript ++ [m] ∧
      m.role = AgentTranscriptRole.system ∧
      m.text = "Voice mode unavailable (" ++ stage.text ++ "). Continuing in backup mode.") ∧
    (switchToFallbackMode stage detail noteId now st).realtimeMessage =
      buildRealtimeFallbackMessage stage detail ∧
    (∃ pre post, buildRealtimeFallbackMessage stage detail = pre ++ stage.text ++ post) ∧
    (sanitizeDetail detail).length ≤ 120 ∧
    (∀ en bs st' sc noteId' now',
      (handleStartRealtimeSession en bs st' sc noteId' now').realtimeStatus =
        RealtimeStatus.fallback →
      (handleStartRealtimeSession en bs st' sc noteId' now').resources = clearedResources) := by
  have h := switchToFallbackMode_result stage detail noteId now st
  refine ⟨h.1, h.2.1, h.2.2.1, h.2.2.2.2.2.1,
    ⟨_, h.2.2.2.2.2.2.2.2, rfl, rfl⟩, h.2.2.2.2.1, ?_,
    sanitizeDetail_length_le detail,
    fun en bs st' sc noteId' now' =>
      handleStartRealtimeSession_fallback_cleanup en bs st' sc noteId' now'⟩
  unfold buildRealtimeFallbackMessage
  by_cases hd : sanitizeDetail detail = ""
  · rw [if_pos hd]
    exact ⟨"Realtime unavailable (", "). Using prototype mode.", rfl⟩
  · rw [if_neg hd]
    refine ⟨"Realtime unavailable (",
      ": " ++ sanitizeDetail detail ++ "). Using prototype mode.", ?_⟩
    simp only [String.append_assoc]

/-- Witness for C3 (amended) at a concrete stage, detail and state. -/
theorem switchToFallbackMode_spec_witness :
    (switchToFallbackMode RealtimeFailureStage.sdpHandshakeFailed (some "offer rejected") "n2" 6
        sampleModalState).resources = clearedResources ∧
    (switchToFallbackMode RealtimeFailureStage.sdpHandshakeFailed (some "offer rejected") "n2" 6
        sampleModalState).realtimeStatus = RealtimeStatus.fallback ∧
    (sanitizeDetail (some "offer rejected")).length ≤ 120 ∧
    (handleStartRealtimeSession true true sampleModalState ConnectScenario.uncategorizedThrow
        "n3" 7).resources = clearedResources := by
  have h := switchToFallbackMode_spec RealtimeFailureStage.sdpHandshakeFailed
    (some "offer rejected") "n2" 6 sampleModalState
  exact ⟨h.1, h.2.2.1, h.2.2.2.2.2.2.2.1,
    h.2.2.2.2.2.2.2.2 true true sampleModalState ConnectScenario.uncategorizedThrow "n3" 7
      (by decide)⟩

/-- `switchVideoFallbackMode` when the realtime audio session is live:
demote only to `audio`, leave the realtime status and connection
resources untouched, record the sanitized stage, and note that voice
continues. -/
theorem switchVideoFallbackMode_live (stage : String) (detail : Option String)
    (noteId : String) (now : Nat) (st : ModalState)
    (hlive : st.realtimeStatus = RealtimeStatus.live) :
    (switchVideoFallbackMode stage detail noteId now st).session.currentMode =
      AgentSessionMode.audio ∧
    (switchVideoFallbackMode stage detail noteId now st).realtimeStatus = st.realtimeStatus ∧
    (switchVideoFallbackMode stage detail noteId now st).resources = st.resources ∧
    (switchVideoFallbackMode stage detail noteId now st).session.status.connected = true ∧
    (switchVideoFallbackMode stage detail noteId now st).session.status.fallbackReason =
      some (sanitizeDetail (some stage)) ∧
    (switchVideoFallbackMode stage detail noteId now st).session.transcript =
      st.session.transcript ++
        [createTranscriptMessage AgentTranscriptRole.system
          "Video avatar unavailable. Continuing in voice mode."
          (some AgentTranscriptSource.fallback) noteId now] := by
  simp [switchVideoFallbackMode, hlive, addSessionSystemNote, appendSessionMessage,
    updateSessionMode, setAgentSessionMode, createTranscriptMessage]

/-- `switchVideoFallbackMode` when no realtime audio session is live:
demote the shared mode to `fallback`, record the sanitized stage as the
fallback reason, and note that backup mode continues. -/
theorem switchVideoFallbackMode_notlive (stage : String) (detail : Option String)
    (noteId : String) (now : Nat) (st : ModalState)
    (hnl : st.realtimeStatus ≠ RealtimeStatus.live) :
    (switchVideoFallbackMode stage detail noteId now st).session.currentMode =
      AgentSessionMode.fallback ∧
    (switchVideoFallbackMode stage detail noteId now st).session.status.connected = false ∧
    (switchVideoFallbackMode stage detail noteId now st).session.status.fallbackReason =
      some (sanitizeDetail (some stage)) ∧
    (switchVideoFallbackMode stage detail noteId now st).session.transcript =
      st.session.transcript ++
        [createTranscriptMessage AgentTranscriptRole.system
          "Video avatar unavailable. Continuing in backup mode."
          (some AgentTranscriptSource.fallback) noteId now] := by
  simp [switchVideoFallbackMode, hnl, addSessionSystemNote, appendSessionMessage,
    updateSessionMode, setAgentSessionMode, createTranscriptMessage]

/-- A failing Tavus connect (guards passed) reduces to
`switchVideoFallbackMode` on the connecting-phase state, with the
server-reported-or-default stage and the reported detail. -/
theorem handleConnectVideoAgent_fail_eq (st : ModalState) (outcome : TavusFetchOutcome)
    (noteId : String) (now : Nat)
    (hc : st.tavusStatus ≠ TavusStatus.connecting)
    (hl : st.tavusStatus ≠ TavusStatus.live)
    (hfail : tavusOutcomeFails outcome = true) :
    handleConnectVideoAgent true st outcome noteId now =
      switchVideoFallbackMode (reportedTavusStage outcome) (reportedTavusDetail outcome)
        noteId now
        { st with
          tavusStatus := TavusStatus.connecting
          sessionPhase := SessionPhase.connecting
          tavusMessage := "Connecting video avatar..." } := by
  have hguard : ¬ (st.tavusStatus = TavusStatus.connecting ∨ st.tavusStatus = TavusStatus.live) := by
    rintro (h | h)
    · exact hc h
    · exact hl h
  unfold handleConnectVideoAgent
  rw [if_neg hguard, if_neg (by simp)]
  rcases outcome with _ | ⟨httpOk, body⟩
  · rfl
  · dsimp only
    rw [if_pos hfail]
    rcases body with ⟨cid, curl⟩ | ⟨error, stg⟩ <;> rfl

/-- C5: on any video-avatar connect failure (feature enabled, attempt
not already in flight), if the realtime audio session is live the shared
session mode is demoted only to `audio` — the status and resources of
the audio session are untouched — with a note that voice continues; otherwise
the shared mode is demoted to `fallback`; in both cases the sanitized
server-reported stage (or the default `session_setup`) is recorded as
the fallback reason. -/
theorem handleConnectVideoAgent_demotion_spec (st : ModalState) (outcome : TavusFetchOutcome)
    (noteId : String) (now : Nat)
    (hc : st.tavusStatus ≠ TavusStatus.connecting)
    (hl : st.tavusStatus ≠ TavusStatus.live)
    (hfail : tavusOutcomeFails outcome = true) :
    (st.realtimeStatus = RealtimeStatus.live →
      (handleConnectVideoAgent true st outcome noteId now).session.currentMode =
        AgentSessionMode.audio ∧
      (handleConnectVideoAgent true st outcome noteId now).realtimeStatus = st.realtimeStatus ∧
      (handleConnectVideoAgent true st outcome noteId now).resources = st.resources ∧
      (handleConnectVideoAgent true st outcome noteId now).session.status.fallbackReason =
        some (sanitizeDetail (some (reportedTavusStage outcome))) ∧
      (handleConnectVideoAgent true st outcome noteId now).session.transcript =
        st.session.transcript ++
          [createTranscriptMessage AgentTranscriptRole.system
            "Video avatar unavailable. Continuing in voice mode."
            (some AgentTranscriptSource.fallback) noteId now]) ∧
    (st.realtimeStatus ≠ RealtimeStatus.live →
      (handleConnectVideoAgent true st outcome noteId now).session.currentMode =
        AgentSessionMode.fallback ∧
      (handleConnectVideoAgent true st outcome noteId now).session.status.connected = false ∧
      (handleConnectVideoAgent true st outcome noteId now).session.status.fallbackReason =
        some (sanitizeDetail (some (reportedTavusStage outcome))) ∧
      (handleConnectVideoAgent true st outcome noteId now).session.transcript =
        st.session.transcript ++
          [createTranscriptMessage AgentTranscriptRole.system
            "Video avatar unavailable. Continuing in backup mode."
            (some AgentTranscriptSource.fallback) noteId now]) := by
  rw [handleConnectVideoAgent_fail_eq st outcome noteId now hc hl hfail]
  constructor
  · intro hlive
    have h := switchVideoFallbackMode_live (reportedTavusStage outcome)
      (reportedTavusDetail outcome) noteId now
      { st with
        tavusStatus := TavusStatus.connecting
        sessionPhase := SessionPhase.connecting
        tavusMessage := "Connecting video avatar..." } hlive
    exact ⟨h.1, h.2.1, h.2.2.1, h.2.2.2.2.1, h.2.2.2.2.2⟩
  · intro hnl
    have h := switchVideoFallbackMode_notlive (reportedTavusStage outcome)
      (reportedTavusDetail outcome) noteId now
      { st with
        tavusStatus := TavusStatus.connecting
        sessionPhase := SessionPhase.connecting
        tavusMessage := "Connecting video avatar..." } hnl
    exact h

/-- Witness for C5: a network-level Tavus failure demotes to `audio`
when audio is live, and to `fallback` from the idle sample state. -/
theorem handleConnectVideoAgent_demotion_spec_witness :
    (handleConnectVideoAgent true { sampleModalState with realtimeStatus := RealtimeStatus.live }
        TavusFetchOutcome.networkError "n1" 9).session.currentMode = AgentSessionMode.audio ∧
    (handleConnectVideoAgent true sampleModalState
        TavusFetchOutcome.networkError "n1" 9).session.currentMode = AgentSessionMode.fallback ∧
    (handleConnectVideoAgent true sampleModalState
        TavusFetchOutcome.networkError "n1" 9).session.status.fallbackReason =
      some (sanitizeDetail (some (reportedTavusStage TavusFetchOutcome.networkError))) := by
  have h1 := handleConnectVideoAgent_demotion_spec
    { sampleModalState with realtimeStatus := RealtimeStatus.live }
    TavusFetchOutcome.networkError "n1" 9 (by decide) (by decide) (by decide)
  have h2 := handleConnectVideoAgent_demotion_spec sampleModalState
    TavusFetchOutcome.networkError "n1" 9 (by decide) (by decide) (by decide)
  exact ⟨(h1.1 rfl).1, (h2.2 (by decide)).1, (h2.2 (by decide)).2.2.1⟩

/-- A connect attempt that reduces to a `switchToFallbackMode`
application on a state sharing the session of the input fails with that
stage. -/
theorem connectFails_of_eq_switch (st : ModalState) (noteId : String) (now : Nat)
    (sc : ConnectScenario) (stage : RealtimeFailureStage) (detail : Option String)
    (s : ModalState) (hs : s.session = st.session)
    (heq : handleStartRealtimeSession true true st sc noteId now =
      switchToFallbackMode stage detail noteId now s) :
    connectFailsWithStage st noteId now sc stage := by
  unfold connectFailsWithStage
  rw [heq]
  have h := switchToFallbackMode_result stage detail noteId now s
  refine ⟨h.2.2.1, h.2.2.2.2.2.1, h.2.2.2.2.2.2.2.1,
    ⟨createTranscriptMessage AgentTranscriptRole.system
      ("Voice mode unavailable (" ++ stage.text ++ "). Continuing in backup mode.")
      (some AgentTranscriptSource.fallback) noteId now, ?_, rfl, rfl⟩⟩
  rw [h.2.2.2.2.2.2.2.2, hs]

/-- C1: each documented failure point of the audio connect sequence
yields exactly its documented stage string and a transition to the
fallback state: microphone denial or failure maps to "microphone
permission denied"; a rejected or erroring bootstrap response with stage
`env`/`session_setup` (or no stage, or a rejected response with a
success body) maps to "session setup failed"; a bootstrap failure with
stage `token_parse`, or a success body missing the `clientSecret` or
`model` fields, maps to "token parse failed"; peer-connection
construction failure or zero microphone tracks map to "webrtc setup
failed"; a non-success SDP response maps to "sdp handshake failed"; a
data-channel open timeout or channel error maps to "data channel
failed"; and an uncategorized exception maps to "unknown". -/
theorem handleStartRealtimeSession_stage_spec (st : ModalState) (noteId : String) (now : Nat)
    (hc : st.realtimeStatus ≠ RealtimeStatus.connecting)
    (hl : st.realtimeStatus ≠ RealtimeStatus.live) :
    (∀ errName respOk body pc sdp channel,
      connectFailsWithStage st noteId now
        (ConnectScenario.run (MicResult.denied errName) respOk body pc sdp channel)
        RealtimeFailureStage.microphonePermissionDenied) ∧
    (∀ tc err stg respOk pc sdp channel,
      (stg = some BootstrapStage.env ∨ stg = some BootstrapStage.session_setup ∨
        stg = Option.none) →
      connectFailsWithStage st noteId now
        (ConnectScenario.run (MicResult.granted tc) respOk
          (RealtimeSessionBody.failure err stg) pc sdp channel)
        RealtimeFailureStage.sessionSetupFailed) ∧
    (∀ tc cs mdl vc pc sdp channel,
      connectFailsWithStage st noteId now
        (ConnectScenario.run (MicResult.granted tc) false
          (RealtimeSessionBody.success cs mdl vc) pc sdp channel)
        RealtimeFailureStage.sessionSetupFailed) ∧
    (∀ tc err respOk pc sdp channel,
      connectFailsWithStage st noteId now
        (ConnectScenario.run (MicResult.granted tc) respOk
          (RealtimeSessionBody.failure err (some BootstrapStage.token_parse)) pc sdp channel)
        RealtimeFailureStage.tokenParseFailed) ∧
    (∀ tc cs mdl vc pc sdp channel,
      (jsTruthy cs = false ∨ jsTruthy mdl = false) →
      connectFailsWithStage st noteId now
        (ConnectScenario.run (MicResult.granted tc) true
          (RealtimeSessionBody.success cs mdl vc) pc sdp channel)
        RealtimeFailureStage.tokenParseFailed) ∧
    (∀ tc cs mdl vc sdp channel,
      jsTruthy cs = true → jsTruthy mdl = true →
      connectFailsWithStage st noteId now
        (ConnectScenario.run (MicResult.granted tc) true
          (RealtimeSessionBody.success cs mdl vc) PcResult.constructorThrew sdp channel)
        RealtimeFailureStage.webrtcSetupFailed) ∧
    (∀ cs mdl vc sdp channel,
      jsTruthy cs = true → jsTruthy mdl = true →
      connectFailsWithStage st noteId now
        (ConnectScenario.run (MicResult.granted 0) true
          (RealtimeSessionBody.success cs mdl vc) PcResult.constructed sdp channel)
        RealtimeFailureStage.webrtcSetupFailed) ∧
    (∀ tc cs mdl vc etxt channel,
      jsTruthy cs = true → jsTruthy mdl = true → tc ≠ 0 →
      connectFailsWithStage st noteId now
        (ConnectScenario.run (MicResult.granted tc) true
          (RealtimeSessionBody.success cs mdl vc) PcResult.constructed
          (SdpExchange.failure etxt) channel)
        RealtimeFailureStage.sdpHandshakeFailed) ∧
    (∀ tc cs mdl vc ans,
      jsTruthy cs = true → jsTruthy mdl = true → tc ≠ 0 →
      connectFailsWithStage st noteId now
        (ConnectScenario.run (MicResult.granted tc) true
          (RealtimeSessionBody.success cs mdl vc) PcResult.constructed
          (SdpExchange.success ans) ChannelWait.timedOut)
        RealtimeFailureStage.dataChannelFailed ∧
      connectFailsWithStage st noteId now
        (ConnectScenario.run (MicResult.granted tc) true
          (RealtimeSessionBody.success cs mdl vc) PcResult.constructed
          (SdpExchange.success ans) ChannelWait.errored)
        RealtimeFailureStage.dataChannelFailed) ∧
    connectFailsWithStage st noteId now ConnectScenario.uncategorizedThrow
      RealtimeFailureStage.unknown := by
  have hguard : ¬ (st.realtimeStatus = RealtimeStatus.connecting ∨
      st.realtimeStatus = RealtimeStatus.live) := by
    rintro (h | h)
    · exact hc h
    · exact hl h
  refine ⟨?_, ?_, ?_, ?_, ?_, ?_, ?_, ?_, ?_, ?_⟩
  · intro errName respOk body pc sdp channel
    refine connectFails_of_eq_switch st noteId now _ _ Option.none (connectingState st) rfl ?_
    unfold handleStartRealtimeSession
    rw [if_neg hguard, if_neg (by simp), if_neg (by simp)]
    rfl
  · intro tc err stg respOk pc sdp channel hstg
    refine connectFails_of_eq_switch st noteId now _ _ (some err) (micGrantedState st tc) rfl ?_
    unfold handleStartRealtimeSession
    rw [if_neg hguard, if_neg (by simp), if_neg (by simp)]
    rcases hstg with h | h | h <;> rw [h] <;> rfl
  · intro tc cs mdl vc pc sdp channel
    refine connectFails_of_eq_switch st noteId now _ _
      (some "Session endpoint returned an unexpected payload.") (micGrantedState st tc) rfl ?_
    unfold handleStartRealtimeSession
    rw [if_neg hguard, if_neg (by simp), if_neg (by simp)]
    rfl
  · intro tc err respOk pc sdp channel
    refine connectFails_of_eq_switch st noteId now _ _ (some err) (micGrantedState st tc) rfl ?_
    unfold handleStartRealtimeSession
    rw [if_neg hguard, if_neg (by simp), if_neg (by simp)]
    rfl
  · intro tc cs mdl vc pc sdp channel htr
    have hcond : ¬ jsTruthy cs = true ∨ ¬ jsTruthy mdl = true := by
      rcases htr with h | h
      · exact Or.inl (by simp [h])
      · exact Or.inr (by simp [h])
    refine connectFails_of_eq_switch st noteId now _ _ Option.none (micGrantedState st tc) rfl ?_
    unfold handleStartRealtimeSession
    rw [if_neg hguard, if_neg (by simp), if_neg (by simp)]
    dsimp only
    rw [if_neg (by simp), if_pos hcond]
    rfl
  · intro tc cs mdl vc sdp channel hcs hmdl
    have hcond : ¬ (¬ jsTruthy cs = true ∨ ¬ jsTruthy mdl = true) := by
      rintro (h | h)
      · exact h hcs
      · exact h hmdl
    refine connectFails_of_eq_switch st noteId now _ _ Option.none (micGrantedState st tc) rfl ?_
    unfold handleStartRealtimeSession
    rw [if_neg hguard, if_neg (by simp), if_neg (by simp)]
    dsimp only
    rw [if_neg (by simp), if_neg hcond]
    rfl
  · intro cs mdl vc sdp channel hcs hmdl
    have hcond : ¬ (¬ jsTruthy cs = true ∨ ¬ jsTruthy mdl = true) := by
      rintro (h | h)
      · exact h hcs
      · exact h hmdl
    refine connectFails_of_eq_switch st noteId now _ _ Option.none (pcConstructedState st 0) rfl ?_
    unfold handleStartRealtimeSession
    rw [if_neg hguard, if_neg (by simp), if_neg (by simp)]
    dsimp only
    rw [if_neg (by simp), if_neg hcond]
    rw [if_pos rfl]
    rfl
  · intro tc cs mdl vc etxt channel hcs hmdl htc
    have hcond : ¬ (¬ jsTruthy cs = true ∨ ¬ jsTruthy mdl = true) := by
      rintro (h | h)
      · exact h hcs
      · exact h hmdl
    refine connectFails_of_eq_switch st noteId now _ _ (some etxt) (channelCreatedState st tc) rfl ?_
    unfold handleStartRealtimeSession
    rw [if_neg hguard, if_neg (by simp), if_neg (by simp)]
    dsimp only
    rw [if_neg (by simp), if_neg hcond]
    rw [if_neg htc]
    rfl
  · intro tc cs mdl vc ans hcs hmdl htc
    have hcond : ¬ (¬ jsTruthy cs = true ∨ ¬ jsTruthy mdl = true) := by
      rintro (h | h)
      · exact h hcs
      · exact h hmdl
    constructor
    · refine connectFails_of_eq_switch st noteId now _ _ Option.none (channelCreatedState st tc) rfl ?_
      unfold handleStartRealtimeSession
      rw [if_neg hguard, if_neg (by simp), if_neg (by simp)]
      dsimp only
      rw [if_neg (by simp), if_neg hcond]
      rw [if_neg htc]
      rfl
    · refine connectFails_of_eq_switch st noteId now _ _ Option.none (channelCreatedState st tc) rfl ?_
      unfold handleStartRealtimeSession
      rw [if_neg hguard, if_neg (by simp), if_neg (by simp)]
      dsimp only
      rw [if_neg (by simp), if_neg hcond]
      rw [if_neg htc]
      rfl
  · refine connectFails_of_eq_switch st noteId now _ _ Option.none (connectingState st) rfl ?_
    unfold handleStartRealtimeSession
    rw [if_neg hguard, if_neg (by simp), if_neg (by simp)]
    rfl

/-- Witness for C1: concrete injections of a denied microphone, an `env`
bootstrap failure, and a data-channel open timeout produce their
documented stages from the sample modal state. -/
theorem handleStartRealtimeSession_stage_spec_witness :
    connectFailsWithStage sampleModalState "n9" 11
      (ConnectScenario.run (MicResult.denied "NotAllowedError") true
        (RealtimeSessionBody.success (some "cs") (some "m") Option.none)
        PcResult.constructed (SdpExchange.success "v=0") ChannelWait.opened)
      RealtimeFailureStage.microphonePermissionDenied ∧
    connectFailsWithStage sampleModalState "n9" 11
      (ConnectScenario.run (MicResult.granted 1) true
        (RealtimeSessionBody.failure "boom" (some BootstrapStage.env))
        PcResult.constructed (SdpExchange.success "v=0") ChannelWait.opened)
      RealtimeFailureStage.sessionSetupFailed ∧
    connectFailsWithStage sampleModalState "n9" 11
      (ConnectScenario.run (MicResult.granted 1) true
        (RealtimeSessionBody.success (some "cs") (some "m") Option.none)
        PcResult.constructed (SdpExchange.success "v=0") ChannelWait.timedOut)
      RealtimeFailureStage.dataChannelFailed := by
  have h := handleStartRealtimeSession_stage_spec sampleModalState "n9" 11
    (by decide) (by decide)
  exact ⟨h.1 "NotAllowedError" true _ _ _ _,
    h.2.1 1 "boom" (some BootstrapStage.env) true _ _ _ (Or.inl rfl),
    (h.2.2.2.2.2.2.2.2.1 1 (some "cs") (some "m") Option.none "v=0" rfl rfl
      (by decide)).1⟩

end EntromyPe
